import Mathlib

/-!
Shallow embedding of the three streaming scene clients of this repository:
`MarkerArrayClient` (src/unnamed/part_000), `OccupancyGridClient`
(src/unnamed/part_001) and `OcTreeClient` (src/src/navigation/OcTreeClient.js).

Each client is embedded as a pure state machine.  Scene-graph objects
(THREE.Object3D nodes, SceneNode wrappers, built grids and octrees) are
represented by natural-number identities allocated from a `nextId` counter;
the children lists of the containers the clients mutate are tracked
explicitly.  Calls into the external collaborators that the clients perform
(`unsubscribeTf`, `dispose`, event emission, transport subscription) are
recorded in logs/flags of the state so that the specification's lifecycle
claims become statements about those fields.
-/

/-- A JavaScript value, as far as the clients' option handling observes one:
the constructors cover `undefined`, `null`, booleans, (integer-valued)
numbers, strings and opaque object references.  Only truthiness and
`typeof x !== 'undefined'` tests are performed on option values by the
source, plus verbatim forwarding. -/
inductive JsVal where
  | undef
  | jsnull
  | jsbool (b : Bool)
  | num (n : Int)
  | str (s : String)
  | obj (tag : String)
  deriving DecidableEq, Repr

/-- JavaScript truthiness of a `JsVal`. -/
def JsVal.truthy : JsVal → Bool
  | .undef => false
  | .jsnull => false
  | .jsbool b => b
  | .num n => n != 0
  | .str s => s != ""
  | .obj _ => true

/-- JavaScript `a || b` as used for option defaulting in the constructors. -/
def jsOr (a b : JsVal) : JsVal := if a.truthy then a else b

/-! ## Marker client (src/unnamed/part_000) -/

/-- One marker record of a `visualization_msgs/MarkerArray` message, with the
fields `MarkerArrayClient.processMessage` reads.  `updateOk` is the boolean
returned by the external builder call
`this.markers[key].children[0].update(message)` (Marker.update is an external
collaborator: a geometry-builder method outside this repository's core files),
carried on the directive as an oracle. -/
structure MarkerDirective where
  ns : String
  id : Int
  action : Int
  frame_id : String
  updateOk : Bool
  deriving DecidableEq, Repr

/-- The registry key used by the source: the string concatenation
`message.ns + message.id` (JavaScript coerces the numeric id to a string). -/
def mKey (m : MarkerDirective) : String := m.ns ++ toString m.id

/-- A Displayed Entity of the marker client: the SceneNode (`nodeId`) built
around a fresh Marker and the SceneNode's children (the Marker object),
whose identities `removeMarker` disposes. -/
structure MEntity where
  nodeId : Nat
  children : List Nat
  deriving DecidableEq, Repr

/-- State of a `MarkerArrayClient`: the registry `markers` (a string-keyed
object in the source), the root container's children, call logs for
`dispose` and `unsubscribeTf`, the count of emitted change events, the
transport subscription, and the id allocator. -/
structure MState where
  markers : List (String × MEntity)
  rootChildren : List Nat
  disposeLog : List Nat
  tfUnsubLog : List Nat
  changeEvents : Nat
  rosTopicSet : Bool
  subActive : Bool
  nextId : Nat
  deriving DecidableEq, Repr

/-- Remove the binding of key `k` from a string-keyed registry
(JavaScript `delete this.markers[key]`). -/
def regErase (r : List (String × MEntity)) (k : String) : List (String × MEntity) :=
  r.filter (fun p => p.1 != k)

/-- Bind key `k` to entity `e` (JavaScript `this.markers[key] = node`;
object keys are unique, so any previous binding of `k` is replaced). -/
def regInsert (r : List (String × MEntity)) (k : String) (e : MEntity) :
    List (String × MEntity) :=
  (k, e) :: regErase r k

namespace MarkerArrayClient

/-- `MarkerArrayClient.removeMarker(key)`: looked-up node absent means
return; otherwise unsubscribe tf, remove the node from the root, invoke
`dispose` on each child, and delete the registry entry. -/
def removeMarker (k : String) (s : MState) : MState :=
  match s.markers.lookup k with
  | none => s
  | some oldNode =>
    { s with
      tfUnsubLog := s.tfUnsubLog ++ [oldNode.nodeId],
      rootChildren := s.rootChildren.erase oldNode.nodeId,
      disposeLog := s.disposeLog ++ oldNode.children,
      markers := regErase s.markers k }

/-- The ADD branch of `processMessage`: build a new Marker, wrap it in a new
SceneNode, register it under the concatenated key and add it to the root. -/
def addMarker (m : MarkerDirective) (s : MState) : MState :=
  let markerId := s.nextId
  let nodeId := s.nextId + 1
  { s with
    markers := regInsert s.markers (mKey m) ⟨nodeId, [markerId]⟩,
    rootChildren := s.rootChildren ++ [nodeId],
    nextId := s.nextId + 2 }

/-- The per-directive body of `MarkerArrayClient.processMessage`'s `forEach`:
action 0 updates in place when possible, falling through to remove-then-add
when `update` returns false, and to a plain add when the key is absent;
action 1 is a deprecation warning only; action 2 deletes; action 3 removes
every registered marker and clears the registry; other actions only warn. -/
def processDirective (s : MState) (m : MarkerDirective) : MState :=
  if m.action = 0 then
    match s.markers.lookup (mKey m) with
    | some _ =>
      if m.updateOk then s
      else addMarker m (removeMarker (mKey m) s)
    | none => addMarker m s
  else if m.action = 1 then s
  else if m.action = 2 then removeMarker (mKey m) s
  else if m.action = 3 then
    let s2 := (s.markers.map Prod.fst).foldl (fun acc k => removeMarker k acc) s
    { s2 with markers := [] }
  else s

/-- `MarkerArrayClient.processMessage`: apply every directive of the array in
order, then emit one batched change event. -/
def processMessage (s : MState) (msgs : List MarkerDirective) : MState :=
  let s2 := msgs.foldl processDirective s
  { s2 with changeEvents := s2.changeEvents + 1 }

/-- `MarkerArrayClient.unsubscribe`: if `this.rosTopic` is set, cancel the
topic subscription; `this.rosTopic` itself is left in place. -/
def unsubscribe (s : MState) : MState :=
  if s.rosTopicSet then { s with subActive := false } else s

/-- The state after the constructor ran: empty registry, fresh root
container, and an active subscription installed by `subscribe()`. -/
def mkClient : MState :=
  { markers := [], rootChildren := [], disposeLog := [], tfUnsubLog := [],
    changeEvents := 0, rosTopicSet := true, subActive := true, nextId := 0 }

/-- Transport delivery: the registered callback is invoked only while the
subscription is active. -/
def deliver (s : MState) (msgs : List MarkerDirective) : MState :=
  if s.subActive then processMessage s msgs else s

end MarkerArrayClient

/-! ## Occupancy grid client (src/unnamed/part_001) -/

/-- Recognized construction options of `OccupancyGridClient` (the fields the
constructor reads besides the opaque `ros`, `rootObject` and `offsetPose`
handles, which the embedded state does not need to inspect). -/
structure GridOptions where
  topic : JsVal
  compression : JsVal
  continuous : JsVal
  tfClient : JsVal
  color : JsVal
  opacity : JsVal
  deriving DecidableEq, Repr

/-- The option fields resolved by the `OccupancyGridClient` constructor with
JavaScript `||` defaulting (`continuous` is stored raw and tested for
truthiness at its use site). -/
structure GridResolvedConfig where
  topicName : JsVal
  compression : JsVal
  continuous : JsVal
  color : JsVal
  opacity : JsVal
  deriving DecidableEq, Repr

/-- The default color object `{r:255,g:255,b:255}` of the grid constructor,
as an opaque object reference. -/
def defaultGridColor : JsVal := JsVal.obj "r255g255b255"

/-- A `nav_msgs/OccupancyGrid` message, reduced to the field the client
itself reads (the builder fields go verbatim to the external
`OccupancyGrid` constructor). -/
structure GridMsg where
  frame_id : String
  deriving DecidableEq, Repr

/-- What `this.sceneNode` refers to in the grid client: `null` (reset by
`subscribe()`), the SceneNode wrapper created in the tfClient branch, or the
grid object itself (the no-tfClient branch aliases `sceneNode` and
`currentGrid`). -/
inductive GridSceneNode where
  | nullNode
  | wrapperNode (id : Nat)
  | bareNode (id : Nat)
  deriving DecidableEq, Repr

/-- State of an `OccupancyGridClient`.  `sceneNodeChildren` is the children
list of the node `sceneNode` currently refers to (empty for a fresh bare
grid); `crashed` records that `this.sceneNode.remove` was reached with
`sceneNode === null`, which throws in JavaScript. -/
structure GridState where
  tfConfigured : Bool
  continuousTruthy : Bool
  currentGrid : Option Nat
  sceneNode : GridSceneNode
  sceneNodeChildren : List Nat
  rootChildren : List Nat
  disposeLog : List Nat
  tfUnsubLog : List Nat
  changeEvents : Nat
  rosTopicSet : Bool
  subActive : Bool
  crashed : Bool
  nextId : Nat
  deriving DecidableEq, Repr

namespace OccupancyGridClient

/-- The option resolution performed by the `OccupancyGridClient`
constructor: `options.x || default` for topic, compression, color and
opacity; `continuous` is copied raw. -/
def resolveOptions (o : GridOptions) : GridResolvedConfig :=
  { topicName := jsOr o.topic (.str "/map"),
    compression := jsOr o.compression (.str "cbor"),
    continuous := o.continuous,
    color := jsOr o.color defaultGridColor,
    opacity := jsOr o.opacity (.num 1) }

/-- `OccupancyGridClient.unsubscribe`: cancel the topic subscription when
`this.rosTopic` is set. -/
def unsubscribe (s : GridState) : GridState :=
  if s.rosTopicSet then { s with subActive := false } else s

/-- Steps (2)-(6) of `processMessage`: build the new grid, install it
(creating the SceneNode wrapper on first install when a tfClient is
configured, otherwise adding into the existing wrapper, or adding the bare
grid to the root), emit the change event, and cancel the subscription when
not continuous. -/
def installGrid (m : GridMsg) (s : GridState) : GridState :=
  let g := s.nextId
  let s2 :=
    if s.tfConfigured then
      match s.sceneNode with
      | GridSceneNode.nullNode =>
        let w := s.nextId + 1
        { s with currentGrid := some g, sceneNode := .wrapperNode w,
                 sceneNodeChildren := [g], rootChildren := s.rootChildren ++ [w],
                 nextId := s.nextId + 2 }
      | _ =>
        { s with currentGrid := some g,
                 sceneNodeChildren := s.sceneNodeChildren ++ [g],
                 nextId := s.nextId + 2 }
    else
      { s with currentGrid := some g, sceneNode := .bareNode g,
               sceneNodeChildren := [], rootChildren := s.rootChildren ++ [g],
               nextId := s.nextId + 2 }
  let s3 := { s2 with changeEvents := s2.changeEvents + 1 }
  if s3.continuousTruthy then s3 else { s3 with subActive := false }

/-- `OccupancyGridClient.processMessage`.  Old-map teardown: the guard
`this.currentGrid.tfClient` is never truthy, because `currentGrid` always
holds an `OccupancyGrid` built from `{message, color, opacity}` only — no
`tfClient` is ever passed to the builder — so `unsubscribeTf` is not called.
`this.sceneNode.remove(this.currentGrid)` erases the grid from the children
of the node `sceneNode` refers to (a no-op when `sceneNode` is the grid
itself, since an object is not among its own children; a thrown TypeError
when `sceneNode` is null), and `this.currentGrid.dispose()` runs after. -/
def processMessage (s : GridState) (m : GridMsg) : GridState :=
  match s.currentGrid with
  | none => installGrid m s
  | some g =>
    match s.sceneNode with
    | GridSceneNode.nullNode => { s with crashed := true }
    | _ =>
      installGrid m
        { s with sceneNodeChildren := s.sceneNodeChildren.erase g,
                 disposeLog := s.disposeLog ++ [g] }

/-- State after the `OccupancyGridClient` constructor: no current grid,
`sceneNode` reset to null by `subscribe()`, active subscription. -/
def mkClient (o : GridOptions) : GridState :=
  { tfConfigured := o.tfClient.truthy,
    continuousTruthy := o.continuous.truthy,
    currentGrid := none, sceneNode := .nullNode, sceneNodeChildren := [],
    rootChildren := [], disposeLog := [], tfUnsubLog := [], changeEvents := 0,
    rosTopicSet := true, subActive := true, crashed := false, nextId := 0 }

/-- Transport delivery: the registered callback is invoked only while the
subscription is active. -/
def deliver (s : GridState) (m : GridMsg) : GridState :=
  if s.subActive then processMessage s m else s

end OccupancyGridClient

/-! ## OcTree client (src/src/navigation/OcTreeClient.js) -/

/-- Recognized construction options of `OcTreeClient`. -/
structure OcOptions where
  topic : JsVal
  compression : JsVal
  continuous : JsVal
  tfClient : JsVal
  color : JsVal
  opacity : JsVal
  colorMode : JsVal
  palette : JsVal
  paletteScale : JsVal
  voxelRenderMode : JsVal
  deriving DecidableEq, Repr

/-- The `this.options` object handed to the octree/geometry builder: each
key is present only when the corresponding construction option was not
`undefined` (`typeof options.x !== 'undefined'`). -/
structure OcConverterOptions where
  color : Option JsVal
  opacity : Option JsVal
  colorMode : Option JsVal
  palette : Option JsVal
  paletteScale : Option JsVal
  voxelRenderMode : Option JsVal
  deriving DecidableEq, Repr

/-- An `octomap_msgs/Octomap` message, reduced to the fields
`OcTreeClient._loadOcTree` dispatches on (`resolution` and `data` go
verbatim to the external octree constructors). -/
structure OcMsg where
  binary : Bool
  id : String
  frame_id : String
  deriving DecidableEq, Repr

/-- State of an `OcTreeClient`.  `sceneNode` is `none` while
`this.sceneNode` is still undefined (the constructor never initializes it);
`disposeLog` and `tfUnsubLog` record `dispose`/`unsubscribeTf` calls the
client performs on entities it owns. -/
structure OcState where
  tfConfigured : Bool
  continuousTruthy : Bool
  currentMap : Option Nat
  sceneNode : Option Nat
  rootChildren : List Nat
  disposeLog : List Nat
  tfUnsubLog : List Nat
  changeEvents : Nat
  rosTopicSet : Bool
  subActive : Bool
  nextId : Nat
  deriving DecidableEq, Repr

namespace OcTreeClient

/-- The pass-through of builder options performed by the `OcTreeClient`
constructor.  Note the source (line 69) assigns `options.palette` — not
`options.paletteScale` — to the forwarded `paletteScale` key. -/
def converterOptions (o : OcOptions) : OcConverterOptions :=
  { color := if o.color = .undef then none else some o.color,
    opacity := if o.opacity = .undef then none else some o.opacity,
    colorMode := if o.colorMode = .undef then none else some o.colorMode,
    palette := if o.palette = .undef then none else some o.palette,
    paletteScale := if o.paletteScale = .undef then none else some o.palette,
    voxelRenderMode :=
      if o.voxelRenderMode = .undef then none else some o.voxelRenderMode }

/-- `OcTreeClient.unsubscribe`: cancel the topic subscription when
`this.rosTopic` is set. -/
def unsubscribe (s : OcState) : OcState :=
  if s.rosTopicSet then { s with subActive := false } else s

/-- Whether Stage 1 (`_loadOcTree`) resolves: a binary message selects
`OcTreeBase`; otherwise the constructor table knows exactly the ids
`OcTree` and `ColorOcTree`.  For any other id `newOcTree` stays null and
`newOcTree.buildGeometry()` throws inside the Promise executor, rejecting
the promise, so no entity is produced. -/
def loadOcTreeSucceeds (m : OcMsg) : Bool :=
  m.binary || m.id == "OcTree" || m.id == "ColorOcTree"

/-- The fulfillment handler of `_processMessagePrivate` (Stage 2): record
the new map as current, point `sceneNode` at the new top-level node (a
fresh SceneNode when a tfClient is configured, otherwise the built map's
object), remove the old node from the root (`rootObject.remove(undefined)`
on first install is a no-op), add the new node, and emit the change event.
No `dispose` call occurs anywhere in this client. -/
def install (m : OcMsg) (s : OcState) : OcState :=
  let newMap := s.nextId
  let newNode := if s.tfConfigured then s.nextId + 1 else s.nextId
  { s with
    currentMap := some newMap,
    sceneNode := some newNode,
    rootChildren :=
      (match s.sceneNode with
       | none => s.rootChildren
       | some oldNode => s.rootChildren.erase oldNode) ++ [newNode],
    changeEvents := s.changeEvents + 1,
    nextId := s.nextId + 2 }

/-- `OcTreeClient.processMessage`.  The old-map check
`if (this.currentMap) { if (this.currentMap.tfClient) ... }` never calls
`unsubscribeTf`: `currentMap` always holds the octree built by
`_loadOcTree` from `{resolution, ...this.options}`, and `this.options`
never contains a `tfClient` key, so the guard is falsy.  Then
`_processMessagePrivate` runs (install happens only when Stage 1 resolves),
and the subscription is cancelled when the client is not continuous. -/
def processMessage (s : OcState) (m : OcMsg) : OcState :=
  let s2 := if loadOcTreeSucceeds m then install m s else s
  if s2.continuousTruthy then s2 else { s2 with subActive := false }

/-- State after the `OcTreeClient` constructor: no current map,
`this.sceneNode` undefined, active subscription. -/
def mkClient (o : OcOptions) : OcState :=
  { tfConfigured := o.tfClient.truthy,
    continuousTruthy := o.continuous.truthy,
    currentMap := none, sceneNode := none, rootChildren := [],
    disposeLog := [], tfUnsubLog := [], changeEvents := 0,
    rosTopicSet := true, subActive := true, nextId := 0 }

/-- Transport delivery: the registered callback is invoked only while the
subscription is active. -/
def deliver (s : OcState) (m : OcMsg) : OcState :=
  if s.subActive then processMessage s m else s

end OcTreeClient

/-! ## Concrete inputs used by the witnesses and counterexamples -/

/-- An ADD directive for namespace "a", id 1. -/
def c1d0 : MarkerDirective :=
  { ns := "a", id := 1, action := 0, frame_id := "map", updateOk := true }

/-- The same key as `c1d0`, an ADD/MODIFY whose in-place update reports
failure. -/
def c1d1 : MarkerDirective :=
  { ns := "a", id := 1, action := 0, frame_id := "map", updateOk := false }

/-- A marker client state holding exactly the entity registered for `c1d0`. -/
def c1State : MState := MarkerArrayClient.processMessage MarkerArrayClient.mkClient [c1d0]

/-- A DELETE directive for the key registered in `c1State`. -/
def c6dPresent : MarkerDirective :=
  { ns := "a", id := 1, action := 2, frame_id := "map", updateOk := true }

/-- A DELETE directive for a key absent from `c1State`. -/
def c6dAbsent : MarkerDirective :=
  { ns := "zz", id := 7, action := 2, frame_id := "map", updateOk := true }

/-- ADD directive with namespace "a1" and id 2 (concatenated key "a12"). -/
def c8Add : MarkerDirective :=
  { ns := "a1", id := 2, action := 0, frame_id := "map", updateOk := true }

/-- DELETE directive with namespace "a" and id 12 (concatenated key "a12"). -/
def c8Del : MarkerDirective :=
  { ns := "a", id := 12, action := 2, frame_id := "map", updateOk := true }

/-- A marker client state with no active subscription ever created. -/
def mNoTopic : MState :=
  { MarkerArrayClient.mkClient with rosTopicSet := false, subActive := false }

/-- Grid construction options with every option left undefined. -/
def gridUndefOpts : GridOptions :=
  { topic := .undef, compression := .undef, continuous := .undef,
    tfClient := .undef, color := .undef, opacity := .undef }

/-- Grid construction options: continuous operation, no tfClient. -/
def c3Opts : GridOptions :=
  { gridUndefOpts with continuous := .jsbool true }

/-- A grid message. -/
def c3m : GridMsg := { frame_id := "map" }

/-- The grid client of `c3Opts` after two delivered messages. -/
def c3run : GridState :=
  OccupancyGridClient.deliver
    (OccupancyGridClient.deliver (OccupancyGridClient.mkClient c3Opts) c3m) c3m

/-- A grid client state with no active subscription ever created. -/
def gNoTopic : GridState :=
  { OccupancyGridClient.mkClient gridUndefOpts with rosTopicSet := false, subActive := false }

/-- Grid construction options with an explicit opacity of 0.0 and a falsy
(null) color. -/
def c10Opts : GridOptions :=
  { gridUndefOpts with color := .jsnull, opacity := .num 0 }

/-- OcTree construction options with every option left undefined. -/
def ocUndefOpts : OcOptions :=
  { topic := .undef, compression := .undef, continuous := .undef,
    tfClient := .undef, color := .undef, opacity := .undef,
    colorMode := .undef, palette := .undef, paletteScale := .undef,
    voxelRenderMode := .undef }

/-- OcTree construction options: continuous operation with a tfClient. -/
def c2Opts : OcOptions :=
  { ocUndefOpts with continuous := .jsbool true, tfClient := .obj "tf" }

/-- A binary-encoded octree message (Stage 1 resolves). -/
def c2m : OcMsg := { binary := true, id := "", frame_id := "map" }

/-- The octree client of `c2Opts` after two delivered (successfully decoded)
messages. -/
def c2run : OcState :=
  OcTreeClient.deliver (OcTreeClient.deliver (OcTreeClient.mkClient c2Opts) c2m) c2m

/-- A non-binary octree message whose id matches no decoder variant. -/
def c4m : OcMsg := { binary := false, id := "Bogus", frame_id := "map" }

/-- An octree client state with no active subscription ever created. -/
def ocNoTopic : OcState :=
  { OcTreeClient.mkClient ocUndefOpts with rosTopicSet := false, subActive := false }

/-- OcTree construction options providing `paletteScale: 2` and no
`palette`. -/
def c9Opts : OcOptions := { ocUndefOpts with paletteScale := .num 2 }

/-- OcTree construction options providing both `palette` and
`paletteScale`. -/
def c9OptsBoth : OcOptions :=
  { ocUndefOpts with palette := .str "p", paletteScale := .num 2 }

/-! ## Helper lemmas -/

/-- Looking up a freshly inserted registry key yields the inserted entity. -/
theorem lookup_regInsert (r : List (String × MEntity)) (k : String) (e : MEntity) :
    (regInsert r k e).lookup k = some e := by
  simp [regInsert, List.lookup]

/-! ## Claims -/

/-- C1 counterexample.  The claim states that after an ADD/MODIFY directive
whose in-place update reports failure, only the delete occurs: the key is
absent from the registry and no new node for it was attached to the root.
On the code this is false: starting from a state holding the key "a1"
(node 1), processing such a directive leaves the key present again, bound
to a freshly built entity whose new node 3 is attached to the root. -/
theorem C1_counterexample :
    ((MarkerArrayClient.processMessage c1State [c1d1]).markers.lookup "a1").isSome = true ∧
    (MarkerArrayClient.processMessage c1State [c1d1]).rootChildren = [3] ∧
    c1State.rootChildren = [1] := by decide

/-- C1 (amended): when the key is present and the in-place update reports
that it cannot represent the new state, the engine performs the DELETE of
that key (frame tracking unsubscribed, node detached, children disposed,
registry entry removed) and then a fresh insert of a new Displayed Entity
for the same key, attaching a new node to the root; after the directive the
key is present again, bound to the freshly built entity. -/
theorem C1_delete_then_reinsert (s : MState) (m : MarkerDirective) (e : MEntity)
    (ha : m.action = 0) (hk : s.markers.lookup (mKey m) = some e)
    (hu : m.updateOk = false) :
    MarkerArrayClient.processDirective s m
      = MarkerArrayClient.addMarker m (MarkerArrayClient.removeMarker (mKey m) s) ∧
    ((MarkerArrayClient.processDirective s m).markers.lookup (mKey m)).isSome = true := by
  have h1 : MarkerArrayClient.processDirective s m
      = MarkerArrayClient.addMarker m (MarkerArrayClient.removeMarker (mKey m) s) := by
    simp [MarkerArrayClient.processDirective, ha, hk, hu]
  refine ⟨h1, ?_⟩
  rw [h1]
  simp [MarkerArrayClient.addMarker, lookup_regInsert]

/-- C1 witness: the amended behavior evaluated on the concrete state
`c1State` and directive `c1d1`. -/
theorem C1_delete_then_reinsert_witness :
    MarkerArrayClient.processDirective c1State c1d1
      = MarkerArrayClient.addMarker c1d1 (MarkerArrayClient.removeMarker (mKey c1d1) c1State) ∧
    ((MarkerArrayClient.processDirective c1State c1d1).markers.lookup (mKey c1d1)).isSome = true :=
  C1_delete_then_reinsert c1State c1d1 ⟨1, [0]⟩ (by decide) (by decide) (by decide)

/-- C6: a DELETE directive with the key present destroys exactly that
Displayed Entity — its frame tracking is unsubscribed, its node is detached
from the root, each owned child's disposal hook is invoked exactly once
(the dispose log grows by exactly the entity's children), and its registry
entry is removed; with the key absent the directive leaves the state
entirely unchanged and raises no error. -/
theorem C6_delete_semantics (s : MState) (m : MarkerDirective) (h : m.action = 2) :
    (s.markers.lookup (mKey m) = none → MarkerArrayClient.processDirective s m = s) ∧
    (∀ e : MEntity, s.markers.lookup (mKey m) = some e →
       MarkerArrayClient.processDirective s m =
         { s with tfUnsubLog := s.tfUnsubLog ++ [e.nodeId],
                  rootChildren := s.rootChildren.erase e.nodeId,
                  disposeLog := s.disposeLog ++ e.children,
                  markers := regErase s.markers (mKey m) }) := by
  have hproc : MarkerArrayClient.processDirective s m
      = MarkerArrayClient.removeMarker (mKey m) s := by
    simp [MarkerArrayClient.processDirective, h]
  constructor
  · intro hn
    rw [hproc]
    simp [MarkerArrayClient.removeMarker, hn]
  · intro e he
    rw [hproc]
    simp [MarkerArrayClient.removeMarker, he]

/-- C6 witness: the DELETE semantics evaluated on the concrete state
`c1State`, once with its registered key and once with an absent key. -/
theorem C6_delete_semantics_witness :
    MarkerArrayClient.processDirective c1State c6dPresent =
      { c1State with tfUnsubLog := c1State.tfUnsubLog ++ [1],
                     rootChildren := c1State.rootChildren.erase 1,
                     disposeLog := c1State.disposeLog ++ [0],
                     markers := regErase c1State.markers (mKey c6dPresent) } ∧
    MarkerArrayClient.processDirective c1State c6dAbsent = c1State :=
  ⟨(C6_delete_semantics c1State c6dPresent (by decide)).2 ⟨1, [0]⟩ (by decide),
   (C6_delete_semantics c1State c6dAbsent (by decide)).1 (by decide)⟩

/-- C2: the claim (Current Singleton invariant) requires that before a new
payload is installed the previous entity's frame tracking has been
unsubscribed and its renderable's disposal hook invoked.  The OcTree client
violates it: after a second successfully decoded message is installed
(change events 2, a new current map), the dispose log and the
unsubscribeTf log are still empty — the old entity was only detached, its
disposal hook was never invoked and its SceneNode's frame tracking was
never unsubscribed (the guard tests `currentMap.tfClient`, which the built
octree never carries). -/
theorem C2_octree_missing_teardown :
    c2run.changeEvents = 2 ∧
    c2run.currentMap = some 2 ∧
    (OcTreeClient.deliver (OcTreeClient.mkClient c2Opts) c2m).currentMap = some 0 ∧
    c2run.disposeLog = [] ∧
    c2run.tfUnsubLog = [] := by decide

/-- C3: the claim (replacement discipline, at most one Displayed Entity
attached to the root) fails for the grid client without a tfClient:
`this.sceneNode.remove(this.currentGrid)` removes the old grid from itself
(a no-op), so after a second message the root container holds both the old
(already disposed) grid 0 and the new grid 2. -/
theorem C3_grid_two_attached :
    c3run.rootChildren = [0, 2] ∧
    c3run.rootChildren.length = 2 ∧
    c3run.disposeLog = [0] ∧
    c3run.changeEvents = 2 := by decide

/-- C4: an octree message with `binary` false and an id matching no decoder
variant produces no entity in Stage 1 (the promise rejects before
resolving), Stage 2 never runs, and the current map, the recorded scene
node, the root container and the change-event count are exactly as before
the message. -/
theorem C4_decode_failure (s : OcState) (m : OcMsg)
    (hb : m.binary = false) (h1 : m.id ≠ "OcTree") (h2 : m.id ≠ "ColorOcTree") :
    OcTreeClient.loadOcTreeSucceeds m = false ∧
    (OcTreeClient.processMessage s m).currentMap = s.currentMap ∧
    (OcTreeClient.processMessage s m).sceneNode = s.sceneNode ∧
    (OcTreeClient.processMessage s m).rootChildren = s.rootChildren ∧
    (OcTreeClient.processMessage s m).changeEvents = s.changeEvents := by
  have hs : OcTreeClient.loadOcTreeSucceeds m = false := by
    simp [OcTreeClient.loadOcTreeSucceeds, hb, h1, h2]
  refine ⟨hs, ?_, ?_, ?_, ?_⟩ <;>
    · simp only [OcTreeClient.processMessage, hs, Bool.false_eq_true, if_false]
      split <;> rfl

/-- C4 witness: a first-message decode failure on a freshly constructed
client leaves the null singleton, the undefined scene node, the empty root
and the zero change count. -/
theorem C4_decode_failure_witness :
    OcTreeClient.loadOcTreeSucceeds c4m = false ∧
    (OcTreeClient.processMessage (OcTreeClient.mkClient ocUndefOpts) c4m).currentMap
      = (OcTreeClient.mkClient ocUndefOpts).currentMap ∧
    (OcTreeClient.processMessage (OcTreeClient.mkClient ocUndefOpts) c4m).sceneNode
      = (OcTreeClient.mkClient ocUndefOpts).sceneNode ∧
    (OcTreeClient.processMessage (OcTreeClient.mkClient ocUndefOpts) c4m).rootChildren
      = (OcTreeClient.mkClient ocUndefOpts).rootChildren ∧
    (OcTreeClient.processMessage (OcTreeClient.mkClient ocUndefOpts) c4m).changeEvents
      = (OcTreeClient.mkClient ocUndefOpts).changeEvents :=
  C4_decode_failure (OcTreeClient.mkClient ocUndefOpts) c4m (by decide)
    (by decide) (by decide)

/-- C5: for both the grid and the octree client, when `continuous` is falsy
(false or left unset), the transport subscription is cancelled after the
first delivered message, and a second message delivered through the
transport leaves the client state unchanged. -/
theorem C5_single_shot_termination :
    (∀ (o : GridOptions) (m1 m2 : GridMsg), o.continuous.truthy = false →
       (OccupancyGridClient.deliver (OccupancyGridClient.mkClient o) m1).subActive = false ∧
       OccupancyGridClient.deliver
           (OccupancyGridClient.deliver (OccupancyGridClient.mkClient o) m1) m2
         = OccupancyGridClient.deliver (OccupancyGridClient.mkClient o) m1) ∧
    (∀ (o : OcOptions) (m1 m2 : OcMsg), o.continuous.truthy = false →
       (OcTreeClient.deliver (OcTreeClient.mkClient o) m1).subActive = false ∧
       OcTreeClient.deliver (OcTreeClient.deliver (OcTreeClient.mkClient o) m1) m2
         = OcTreeClient.deliver (OcTreeClient.mkClient o) m1) := by
  constructor
  · intro o m1 m2 h
    have h1 : (OccupancyGridClient.deliver (OccupancyGridClient.mkClient o) m1).subActive
        = false := by
      simp only [OccupancyGridClient.deliver, OccupancyGridClient.mkClient,
        OccupancyGridClient.processMessage, OccupancyGridClient.installGrid,
        if_true]
      split <;> simp_all
    refine ⟨h1, ?_⟩
    have h2 := h1
    simp only [OccupancyGridClient.deliver] at h2 ⊢
    rw [h2]
    simp
  · intro o m1 m2 h
    have h1 : (OcTreeClient.deliver (OcTreeClient.mkClient o) m1).subActive = false := by
      simp only [OcTreeClient.deliver, OcTreeClient.mkClient,
        OcTreeClient.processMessage, OcTreeClient.install, if_true]
      split <;> simp_all
    refine ⟨h1, ?_⟩
    have h2 := h1
    simp only [OcTreeClient.deliver] at h2 ⊢
    rw [h2]
    simp

/-- C5 witness: the single-shot behavior evaluated on freshly constructed
clients with `continuous` left unset, for concrete messages. -/
theorem C5_single_shot_termination_witness :
    ((OccupancyGridClient.deliver (OccupancyGridClient.mkClient gridUndefOpts) c3m).subActive
        = false ∧
      OccupancyGridClient.deliver
          (OccupancyGridClient.deliver (OccupancyGridClient.mkClient gridUndefOpts) c3m) c3m
        = OccupancyGridClient.deliver (OccupancyGridClient.mkClient gridUndefOpts) c3m) ∧
    ((OcTreeClient.deliver (OcTreeClient.mkClient ocUndefOpts) c2m).subActive = false ∧
      OcTreeClient.deliver
          (OcTreeClient.deliver (OcTreeClient.mkClient ocUndefOpts) c2m) c2m
        = OcTreeClient.deliver (OcTreeClient.mkClient ocUndefOpts) c2m) :=
  ⟨C5_single_shot_termination.1 gridUndefOpts c3m c3m (by decide),
   C5_single_shot_termination.2 ocUndefOpts c2m c2m (by decide)⟩

/-- C7: for each of the three clients and every client state, a second
`unsubscribe()` produces the same state as the first; `unsubscribe()` with
no transport subscription recorded is a no-op; and (under the constructor
invariant that an active subscription implies a recorded topic) after
`unsubscribe()` no active transport subscription remains. -/
theorem C7_unsubscribe_idempotent :
    (∀ s : MState,
       MarkerArrayClient.unsubscribe (MarkerArrayClient.unsubscribe s)
           = MarkerArrayClient.unsubscribe s ∧
       (s.rosTopicSet = false → MarkerArrayClient.unsubscribe s = s) ∧
       ((s.subActive = true → s.rosTopicSet = true) →
          (MarkerArrayClient.unsubscribe s).subActive = false)) ∧
    (∀ s : GridState,
       OccupancyGridClient.unsubscribe (OccupancyGridClient.unsubscribe s)
           = OccupancyGridClient.unsubscribe s ∧
       (s.rosTopicSet = false → OccupancyGridClient.unsubscribe s = s) ∧
       ((s.subActive = true → s.rosTopicSet = true) →
          (OccupancyGridClient.unsubscribe s).subActive = false)) ∧
    (∀ s : OcState,
       OcTreeClient.unsubscribe (OcTreeClient.unsubscribe s)
           = OcTreeClient.unsubscribe s ∧
       (s.rosTopicSet = false → OcTreeClient.unsubscribe s = s) ∧
       ((s.subActive = true → s.rosTopicSet = true) →
          (OcTreeClient.unsubscribe s).subActive = false)) := by
  refine ⟨fun s => ?_, fun s => ?_, fun s => ?_⟩
  · unfold MarkerArrayClient.unsubscribe
    by_cases hr : s.rosTopicSet = true
    · refine ⟨by simp [hr], by simp [hr], fun _ => by simp [hr]⟩
    · simp only [Bool.not_eq_true] at hr
      refine ⟨by simp [hr], by simp [hr], fun himp => ?_⟩
      cases hsub : s.subActive
      · simp [hr, hsub]
      · exact absurd (himp hsub) (by simp [hr])
  · unfold OccupancyGridClient.unsubscribe
    by_cases hr : s.rosTopicSet = true
    · refine ⟨by simp [hr], by simp [hr], fun _ => by simp [hr]⟩
    · simp only [Bool.not_eq_true] at hr
      refine ⟨by simp [hr], by simp [hr], fun himp => ?_⟩
      cases hsub : s.subActive
      · simp [hr, hsub]
      · exact absurd (himp hsub) (by simp [hr])
  · unfold OcTreeClient.unsubscribe
    by_cases hr : s.rosTopicSet = true
    · refine ⟨by simp [hr], by simp [hr], fun _ => by simp [hr]⟩
    · simp only [Bool.not_eq_true] at hr
      refine ⟨by simp [hr], by simp [hr], fun himp => ?_⟩
      cases hsub : s.subActive
      · simp [hr, hsub]
      · exact absurd (himp hsub) (by simp [hr])

/-- C7 witness: idempotence, the no-subscription no-op, and the
inactive-after-unsubscribe property evaluated on concrete states of all
three clients. -/
theorem C7_unsubscribe_idempotent_witness :
    (MarkerArrayClient.unsubscribe (MarkerArrayClient.unsubscribe MarkerArrayClient.mkClient)
        = MarkerArrayClient.unsubscribe MarkerArrayClient.mkClient ∧
      MarkerArrayClient.unsubscribe mNoTopic = mNoTopic ∧
      (MarkerArrayClient.unsubscribe MarkerArrayClient.mkClient).subActive = false) ∧
    (OccupancyGridClient.unsubscribe
          (OccupancyGridClient.unsubscribe (OccupancyGridClient.mkClient gridUndefOpts))
        = OccupancyGridClient.unsubscribe (OccupancyGridClient.mkClient gridUndefOpts) ∧
      OccupancyGridClient.unsubscribe gNoTopic = gNoTopic ∧
      (OccupancyGridClient.unsubscribe (OccupancyGridClient.mkClient gridUndefOpts)).subActive
        = false) ∧
    (OcTreeClient.unsubscribe (OcTreeClient.unsubscribe (OcTreeClient.mkClient ocUndefOpts))
        = OcTreeClient.unsubscribe (OcTreeClient.mkClient ocUndefOpts) ∧
      OcTreeClient.unsubscribe ocNoTopic = ocNoTopic ∧
      (OcTreeClient.unsubscribe (OcTreeClient.mkClient ocUndefOpts)).subActive = false) :=
  ⟨⟨(C7_unsubscribe_idempotent.1 MarkerArrayClient.mkClient).1,
    (C7_unsubscribe_idempotent.1 mNoTopic).2.1 (by decide),
    (C7_unsubscribe_idempotent.1 MarkerArrayClient.mkClient).2.2 (fun _ => by decide)⟩,
   ⟨(C7_unsubscribe_idempotent.2.1 (OccupancyGridClient.mkClient gridUndefOpts)).1,
    (C7_unsubscribe_idempotent.2.1 gNoTopic).2.1 (by decide),
    (C7_unsubscribe_idempotent.2.1 (OccupancyGridClient.mkClient gridUndefOpts)).2.2
      (fun _ => by decide)⟩,
   ⟨(C7_unsubscribe_idempotent.2.2 (OcTreeClient.mkClient ocUndefOpts)).1,
    (C7_unsubscribe_idempotent.2.2 ocNoTopic).2.1 (by decide),
    (C7_unsubscribe_idempotent.2.2 (OcTreeClient.mkClient ocUndefOpts)).2.2
      (fun _ => by decide)⟩⟩

/-- C8 counterexample.  The claim states that directives with different
(namespace, identifier) pairs always address distinct Registry entries.
On the code this is false: the key is the naive string concatenation, so
ns="a1", id=2 and ns="a", id=12 share the key "a12", and a DELETE with the
second pair removes the entry inserted with the first. -/
theorem C8_counterexample :
    mKey c8Add = mKey c8Del ∧
    (c8Add.ns ≠ c8Del.ns ∨ c8Add.id ≠ c8Del.id) ∧
    (MarkerArrayClient.processDirective
        (MarkerArrayClient.processDirective MarkerArrayClient.mkClient c8Add)
        c8Del).markers = [] := by decide

/-- C8 (amended): the Registry is keyed by the string concatenation of the
namespace and the stringified identifier, so two directives address the
same Registry entry exactly when their concatenated keys are equal, and
distinct (namespace, identifier) pairs can collide: ns="a1", id=2 and
ns="a", id=12 both resolve to the key "a12" and hence the same entry. -/
theorem C8_concatenated_keys :
    (∀ d1 d2 : MarkerDirective,
       mKey d1 = mKey d2 ↔ d1.ns ++ toString d1.id = d2.ns ++ toString d2.id) ∧
    mKey c8Add = "a12" ∧
    mKey c8Del = "a12" ∧
    (MarkerArrayClient.processDirective
        (MarkerArrayClient.processDirective MarkerArrayClient.mkClient c8Add)
        c8Del).markers = [] :=
  ⟨fun _ _ => Iff.rfl, by decide, by decide, by decide⟩

/-- C9: the claim (every present builder option is forwarded verbatim) is
right and the code is wrong for `paletteScale`: the constructor assigns
`options.palette` to the forwarded `paletteScale` key, so with
`paletteScale: 2` and no `palette` the builder receives `undefined`, and
with both set it receives the palette value instead of 2; the other
options are forwarded verbatim and absent ones are omitted. -/
theorem C9_paletteScale_not_verbatim :
    (OcTreeClient.converterOptions c9Opts).paletteScale = some JsVal.undef ∧
    (OcTreeClient.converterOptions c9Opts).paletteScale ≠ some (JsVal.num 2) ∧
    (OcTreeClient.converterOptions c9OptsBoth).paletteScale = some (JsVal.str "p") ∧
    (OcTreeClient.converterOptions c9Opts).colorMode = none ∧
    (OcTreeClient.converterOptions c9Opts).palette = none ∧
    (OcTreeClient.converterOptions c9Opts).voxelRenderMode = none := by decide

/-- C10: because defaults are applied with JavaScript `||`, constructing
the grid client with an explicit opacity of 0.0 yields the default opacity
1.0, indistinguishable from leaving opacity unspecified, and a falsy color
value likewise yields the default color. -/
theorem C10_falsy_option_coercion (o : GridOptions)
    (h0 : o.opacity = JsVal.num 0) (hc : o.color.truthy = false) :
    (OccupancyGridClient.resolveOptions o).opacity = JsVal.num 1 ∧
    (OccupancyGridClient.resolveOptions o).opacity
      = (OccupancyGridClient.resolveOptions { o with opacity := JsVal.undef }).opacity ∧
    (OccupancyGridClient.resolveOptions o).color = defaultGridColor := by
  refine ⟨?_, ?_, ?_⟩
  · show jsOr o.opacity (JsVal.num 1) = JsVal.num 1
    simp only [h0]
    decide
  · show jsOr o.opacity (JsVal.num 1) = jsOr JsVal.undef (JsVal.num 1)
    simp only [h0]
    decide
  · show jsOr o.color defaultGridColor = defaultGridColor
    simp [jsOr, hc]

/-- C10 witness: the falsy coercion evaluated on concrete options with
opacity 0.0 and a null color. -/
theorem C10_falsy_option_coercion_witness :
    (OccupancyGridClient.resolveOptions c10Opts).opacity = JsVal.num 1 ∧
    (OccupancyGridClient.resolveOptions c10Opts).opacity
      = (OccupancyGridClient.resolveOptions { c10Opts with opacity := JsVal.undef }).opacity ∧
    (OccupancyGridClient.resolveOptions c10Opts).color = defaultGridColor :=
  C10_falsy_option_coercion c10Opts (by decide) (by decide)
